import Mathlib

/-!
Verification of the `mi.producto` record type defined in
`modulo_ejemplo/models/producto.py`.

The model is embedded shallowly: a record is a Lean structure, the
computed-field methods and actions become pure functions on records (the
source iterates over its recordset with `for record in self`, which we
model as `List.map` / folds over a `List Producto`), and the host ORM's
commit-with-validation protocol becomes an explicit `Except`-valued commit
over a store given as a list of records.  Monetary amounts (`fields.Float`)
are modelled as exact rationals, `fields.Integer` as `Int`.
-/

/-- The `tipo` selection field: `[('fisico', ...), ('digital', ...)]`. -/
inductive Tipo where
  | fisico
  | digital
deriving DecidableEq, Repr

/-- One `mi.producto` record.  `subtotal` and `total` are the computed
fields; in the embedding they are ordinary fields that the compute
functions overwrite, mirroring `@api.depends` recomputation. -/
structure Producto where
  nombre : String
  descripcion : Option String
  precio_unitario : ℚ
  cantidad : ℤ
  subtotal : ℚ
  iva : ℚ
  total : ℚ
  activo : Bool
  categoria_id : Option ℕ
  tipo : Tipo
deriving DecidableEq, Repr

/-- Body of the loop of `_compute_subtotal`:
`record.subtotal = record.precio_unitario * record.cantidad`. -/
def computeSubtotalOne (r : Producto) : Producto :=
  { r with subtotal := r.precio_unitario * (r.cantidad : ℚ) }

/-- `_compute_subtotal`, looping over the recordset. -/
def compute_subtotal (recs : List Producto) : List Producto :=
  recs.map computeSubtotalOne

/-- Body of the loop of `_compute_total`:
`record.total = record.subtotal * (1 + record.iva / 100)`. -/
def computeTotalOne (r : Producto) : Producto :=
  { r with total := r.subtotal * (1 + r.iva / 100) }

/-- `_compute_total`, looping over the recordset. -/
def compute_total (recs : List Producto) : List Producto :=
  recs.map computeTotalOne

/-- One recomputation pass on a record, in `@api.depends` dependency
order: `subtotal` (from `precio_unitario`, `cantidad`) is resolved before
`total` (from `subtotal`, `iva`). -/
def recomputeOne (r : Producto) : Producto :=
  computeTotalOne (computeSubtotalOne r)

/-- One recomputation pass on a recordset: `_compute_subtotal` then
`_compute_total`. -/
def recomputePass (recs : List Producto) : List Producto :=
  compute_total (compute_subtotal recs)

/-- Message of the `ValueError` raised by `_check_valores` for a negative
`precio_unitario`. -/
def precioMsg : String := "El precio unitario no puede ser negativo"

/-- Message of the `ValueError` raised by `_check_valores` for a negative
`cantidad`. -/
def cantidadMsg : String := "La cantidad no puede ser negativa"

/-- `_check_valores`: loops over the recordset and raises (here: returns
`.error`) on the first record with `precio_unitario < 0` or
`cantidad < 0`. -/
def check_valores : List Producto → Except String Unit
  | [] => Except.ok ()
  | r :: rs =>
      if r.precio_unitario < 0 then Except.error precioMsg
      else if r.cantidad < 0 then Except.error cantidadMsg
      else check_valores rs

/-- `_onchange_subtotal`: form-side recompute.  The source guards with
`if self.precio_unitario and self.cantidad:`, Python truthiness, so the
reassignment happens only when both values are nonzero. -/
def onchange_subtotal (r : Producto) : Producto :=
  if r.precio_unitario ≠ 0 ∧ r.cantidad ≠ 0 then
    { r with subtotal := r.precio_unitario * (r.cantidad : ℚ) }
  else r

/-- A value dictionary handed to `create` / `write`: `none` means the key
is absent from the dictionary. -/
structure Vals where
  nombre : Option String
  descripcion : Option (Option String)
  precio_unitario : Option ℚ
  cantidad : Option ℤ
  iva : Option ℚ
  activo : Option Bool
  categoria_id : Option (Option ℕ)
  tipo : Option Tipo
  subtotal : Option ℚ
  total : Option ℚ
deriving DecidableEq, Repr

/-- The empty value dictionary. -/
def emptyVals : Vals :=
  { nombre := none, descripcion := none, precio_unitario := none,
    cantidad := none, iva := none, activo := none, categoria_id := none,
    tipo := none, subtotal := none, total := none }

/-- `create(vals)`: fields absent from `vals` take their declared defaults
(`precio_unitario` 10.0 via `_default_precio_unitario`, `cantidad` 1 via
the `default_get` override and the field default, `iva` 21, `activo` True,
`tipo` 'fisico'); the computed fields `subtotal` / `total` are then
recomputed from the dependencies, never taken from `vals`. -/
def create_record (v : Vals) : Producto :=
  recomputeOne
    { nombre := v.nombre.getD ""
      descripcion := v.descripcion.getD none
      precio_unitario := v.precio_unitario.getD 10
      cantidad := v.cantidad.getD 1
      subtotal := 0
      iva := v.iva.getD 21
      total := 0
      activo := v.activo.getD true
      categoria_id := v.categoria_id.getD none
      tipo := v.tipo.getD Tipo.fisico }

/-- `write(vals)` on one record: fields present in `vals` overwrite the
stored value, the computed fields are then recomputed. -/
def write_record (r : Producto) (v : Vals) : Producto :=
  recomputeOne
    { nombre := v.nombre.getD r.nombre
      descripcion := v.descripcion.getD r.descripcion
      precio_unitario := v.precio_unitario.getD r.precio_unitario
      cantidad := v.cantidad.getD r.cantidad
      subtotal := r.subtotal
      iva := v.iva.getD r.iva
      total := r.total
      activo := v.activo.getD r.activo
      categoria_id := v.categoria_id.getD r.categoria_id
      tipo := v.tipo.getD r.tipo }

/-- Committing a batch create: the host builds the new records, runs the
`@api.constrains` check `_check_valores` on the affected records inside
the transaction, and appends them to the store only when it passes. -/
def commitCreate (store : List Producto) (batch : List Vals) :
    Except String (List Producto) :=
  match check_valores (batch.map create_record) with
  | Except.ok _ => Except.ok (store ++ batch.map create_record)
  | Except.error e => Except.error e

/-- Committing a batch write of `v` to the records selected by `sel`: the
constraint runs on the affected (updated) records; the updated store is
produced only when it passes. -/
def commitWrite (store : List Producto) (sel : Producto → Bool) (v : Vals) :
    Except String (List Producto) :=
  match check_valores ((store.filter sel).map (fun r => write_record r v)) with
  | Except.ok _ =>
      Except.ok (store.map (fun r => if sel r then write_record r v else r))
  | Except.error e => Except.error e

/-- Host transaction semantics around a commit: on error the whole
transaction rolls back, so the store is left as it was. -/
def runCreate (store : List Producto) (batch : List Vals) : List Producto :=
  match commitCreate store batch with
  | Except.ok s => s
  | Except.error _ => store

/-- Host transaction semantics around a write commit: on error the store
is left as it was. -/
def runWrite (store : List Producto) (sel : Producto → Bool) (v : Vals) :
    List Producto :=
  match commitWrite store sel v with
  | Except.ok s => s
  | Except.error _ => store

/-- `action_marcar_inactivo`: sets `activo = False` on every record of the
recordset and returns `True`. -/
def action_marcar_inactivo (recs : List Producto) : List Producto × Bool :=
  (recs.map (fun r => { r with activo := false }), true)

/-- The dictionary returned by `action_abrir_wizard`. -/
structure Accion where
  type : String
  res_model : String
  view_mode : String
  target : String
deriving DecidableEq, Repr

/-- `action_abrir_wizard`: returns the window-action dictionary and does
nothing else (the recordset argument models `self`, which the body never
uses). -/
def action_abrir_wizard (_recs : List Producto) : Accion :=
  { type := "ir.actions.act_window"
    res_model := "mi.modulo.wizard"
    view_mode := "form"
    target := "new" }

/-- The value dictionary `duplicar_producto` builds for one record: name
suffixed with " (Copia)", the listed fields copied, no key for the
computed fields `subtotal` / `total`. -/
def duplicarVals (r : Producto) : Vals :=
  { nombre := some (r.nombre ++ " (Copia)")
    descripcion := some r.descripcion
    precio_unitario := some r.precio_unitario
    cantidad := some r.cantidad
    iva := some r.iva
    activo := some r.activo
    categoria_id := some r.categoria_id
    tipo := some r.tipo
    subtotal := none
    total := none }

/-- `duplicar_producto`: for every record of the recordset, `self.create`
a copy into the store; the Python body has no `return`, so the method
hands `None` back to its caller, modelled as the `none` of the pair. -/
def duplicar_producto (recs : List Producto) (store : List Producto) :
    List Producto × Option Producto :=
  (recs.foldl (fun s r => s ++ [create_record (duplicarVals r)]) store, none)

/-- `productos_activos`: `self.search([("activo", "=", True)])`.  The
host's `search` filters the store by the domain and returns the result in
the model's `_order`, here `"nombre asc"`. -/
def productos_activos (store : List Producto) : List Producto :=
  (store.filter (fun r => r.activo)).mergeSort
    (fun a b => decide (a.nombre ≤ b.nombre))

instance {ε α : Type _} [DecidableEq ε] [DecidableEq α] :
    DecidableEq (Except ε α) := fun a b =>
  match a, b with
  | Except.error e, Except.error e' =>
      if h : e = e' then isTrue (congrArg Except.error h)
      else isFalse (fun hc => h (Except.error.inj hc))
  | Except.ok x, Except.ok y =>
      if h : x = y then isTrue (congrArg Except.ok h)
      else isFalse (fun hc => h (Except.ok.inj hc))
  | Except.error _, Except.ok _ => isFalse (fun hc => Except.noConfusion hc)
  | Except.ok _, Except.error _ => isFalse (fun hc => Except.noConfusion hc)

/-- A create dictionary with `nombre = "A"` and a negative unit price. -/
def valsNegA : Vals := { emptyVals with nombre := some "A", precio_unitario := some (-1) }

/-- A create dictionary with `nombre = "B"` and a negative unit price. -/
def valsNegB : Vals := { emptyVals with nombre := some "B", precio_unitario := some (-1) }

/-- A form-state record with `cantidad = 0` and a stale `subtotal` left
over from an earlier edit. -/
def rStale : Producto :=
  { nombre := "X", descripcion := none, precio_unitario := 5, cantidad := 0,
    subtotal := 50, iva := 21, total := 0, activo := true,
    categoria_id := none, tipo := Tipo.fisico }

/-- A well-formed record with nonzero price and quantity. -/
def rGood : Producto :=
  { nombre := "Widget", descripcion := some "w", precio_unitario := 5,
    cantidad := 2, subtotal := 10, iva := 21, total := 121 / 10,
    activo := true, categoria_id := some 3, tipo := Tipo.digital }

theorem check_valores_ok_iff (recs : List Producto) :
    check_valores recs = Except.ok () ↔
      ∀ r ∈ recs, 0 ≤ r.precio_unitario ∧ 0 ≤ r.cantidad := by
  induction recs with
  | nil => simp [check_valores]
  | cons r rs ih =>
      by_cases h1 : r.precio_unitario < 0
      · simp only [check_valores, if_pos h1]
        constructor
        · intro h; exact Except.noConfusion h
        · intro h; exact absurd (h r (List.mem_cons_self r rs)).1 (not_le.mpr h1)
      · by_cases h2 : r.cantidad < 0
        · simp only [check_valores, if_neg h1, if_pos h2]
          constructor
          · intro h; exact Except.noConfusion h
          · intro h; exact absurd (h r (List.mem_cons_self r rs)).2 (not_le.mpr h2)
        · simp only [check_valores, if_neg h1, if_neg h2, ih, List.mem_cons]
          constructor
          · intro h r' hr'
            rcases hr' with hr' | hr'
            · exact hr' ▸ ⟨not_lt.mp h1, not_lt.mp h2⟩
            · exact h r' hr'
          · intro h r' hr'
            exact h r' (Or.inr hr')

theorem check_valores_error_shape (recs : List Producto) (e : String)
    (h : check_valores recs = Except.error e) :
    (e = precioMsg ∧ ∃ r ∈ recs, r.precio_unitario < 0) ∨
      (e = cantidadMsg ∧ ∃ r ∈ recs, r.cantidad < 0) := by
  induction recs with
  | nil => exact absurd h (by simp [check_valores])
  | cons r rs ih =>
      by_cases h1 : r.precio_unitario < 0
      · simp only [check_valores, if_pos h1, Except.error.injEq] at h
        exact Or.inl ⟨h.symm, r, List.mem_cons_self r rs, h1⟩
      · by_cases h2 : r.cantidad < 0
        · simp only [check_valores, if_neg h1, if_pos h2, Except.error.injEq] at h
          exact Or.inr ⟨h.symm, r, List.mem_cons_self r rs, h2⟩
        · simp only [check_valores, if_neg h1, if_neg h2] at h
          rcases ih h with ⟨he, r', hr', hv⟩ | ⟨he, r', hr', hv⟩
          · exact Or.inl ⟨he, r', List.mem_cons_of_mem r hr', hv⟩
          · exact Or.inr ⟨he, r', List.mem_cons_of_mem r hr', hv⟩

theorem duplicar_producto_fst (recs store : List Producto) :
    (duplicar_producto recs store).1 =
      store ++ recs.map (fun r => create_record (duplicarVals r)) := by
  show recs.foldl (fun s r => s ++ [create_record (duplicarVals r)]) store = _
  induction recs generalizing store with
  | nil => simp
  | cons r rs ih => simp [List.foldl_cons, ih, List.append_assoc]

theorem commitCreate_ok_iff (store : List Producto) (batch : List Vals) :
    (∃ s, commitCreate store batch = Except.ok s) ↔
      ∀ w ∈ batch,
        0 ≤ (create_record w).precio_unitario ∧ 0 ≤ (create_record w).cantidad := by
  have hmap :
      (∀ r ∈ batch.map create_record, 0 ≤ r.precio_unitario ∧ 0 ≤ r.cantidad) ↔
        ∀ w ∈ batch,
          0 ≤ (create_record w).precio_unitario ∧ 0 ≤ (create_record w).cantidad := by
    constructor
    · intro h w hw; exact h _ (List.mem_map_of_mem _ hw)
    · intro h r hr
      rcases List.mem_map.mp hr with ⟨w, hw, rfl⟩
      exact h w hw
  rw [← hmap, ← check_valores_ok_iff]
  unfold commitCreate
  cases h : check_valores (batch.map create_record) with
  | error e => simp
  | ok u => cases u; simp

theorem commitWrite_ok_iff (store : List Producto) (sel : Producto → Bool)
    (v : Vals) :
    (∃ s, commitWrite store sel v = Except.ok s) ↔
      ∀ r ∈ store.filter sel,
        0 ≤ (write_record r v).precio_unitario ∧ 0 ≤ (write_record r v).cantidad := by
  have hmap :
      (∀ r' ∈ (store.filter sel).map (fun r => write_record r v),
          0 ≤ r'.precio_unitario ∧ 0 ≤ r'.cantidad) ↔
        ∀ r ∈ store.filter sel,
          0 ≤ (write_record r v).precio_unitario ∧ 0 ≤ (write_record r v).cantidad := by
    constructor
    · intro h r hr; exact h _ (List.mem_map_of_mem _ hr)
    · intro h r' hr'
      rcases List.mem_map.mp hr' with ⟨r, hr, rfl⟩
      exact h r hr
  rw [← hmap, ← check_valores_ok_iff]
  unfold commitWrite
  cases h : check_valores ((store.filter sel).map (fun r => write_record r v)) with
  | error e => simp
  | ok u => cases u; simp

theorem commitCreate_error_check (store : List Producto) (batch : List Vals)
    (e : String) (h : commitCreate store batch = Except.error e) :
    check_valores (batch.map create_record) = Except.error e := by
  unfold commitCreate at h
  cases hcv : check_valores (batch.map create_record) with
  | ok u => rw [hcv] at h; exact Except.noConfusion h
  | error e' =>
      rw [hcv] at h
      simp only [Except.error.injEq] at h
      rw [h]

theorem commitWrite_error_check (store : List Producto) (sel : Producto → Bool)
    (v : Vals) (e : String) (h : commitWrite store sel v = Except.error e) :
    check_valores ((store.filter sel).map (fun r => write_record r v)) =
      Except.error e := by
  unfold commitWrite at h
  cases hcv : check_valores ((store.filter sel).map (fun r => write_record r v)) with
  | ok u => rw [hcv] at h; exact Except.noConfusion h
  | error e' =>
      rw [hcv] at h
      simp only [Except.error.injEq] at h
      rw [h]

/-- Claim C1 (amended): a create or write commit succeeds without error if
and only if every affected record has `precio_unitario ≥ 0` and
`cantidad ≥ 0`; when violated, the commit fails with the validation error
(the source's `ValueError`) whose fixed message identifies the offending
field — but carries no identity of the offending record — and, by the
host's transaction rollback, no field changes of any batched record
persist. -/
theorem commit_validation (store : List Producto) (batch : List Vals)
    (sel : Producto → Bool) (v : Vals) :
    ((∃ s, commitCreate store batch = Except.ok s) ↔
        ∀ w ∈ batch,
          0 ≤ (create_record w).precio_unitario ∧ 0 ≤ (create_record w).cantidad) ∧
      ((∃ s, commitWrite store sel v = Except.ok s) ↔
        ∀ r ∈ store.filter sel,
          0 ≤ (write_record r v).precio_unitario ∧ 0 ≤ (write_record r v).cantidad) ∧
      (∀ e, commitCreate store batch = Except.error e →
        runCreate store batch = store ∧
          ((e = precioMsg ∧ ∃ w ∈ batch, (create_record w).precio_unitario < 0) ∨
            (e = cantidadMsg ∧ ∃ w ∈ batch, (create_record w).cantidad < 0))) ∧
      (∀ e, commitWrite store sel v = Except.error e →
        runWrite store sel v = store ∧
          ((e = precioMsg ∧
              ∃ r ∈ store.filter sel, (write_record r v).precio_unitario < 0) ∨
            (e = cantidadMsg ∧
              ∃ r ∈ store.filter sel, (write_record r v).cantidad < 0))) := by
  refine ⟨commitCreate_ok_iff store batch, commitWrite_ok_iff store sel v, ?_, ?_⟩
  · intro e he
    refine ⟨by unfold runCreate; rw [he], ?_⟩
    have hshape := check_valores_error_shape _ e (commitCreate_error_check store batch e he)
    rcases hshape with ⟨hmsg, r, hr, hv⟩ | ⟨hmsg, r, hr, hv⟩
    · rcases List.mem_map.mp hr with ⟨w, hw, rfl⟩
      exact Or.inl ⟨hmsg, w, hw, hv⟩
    · rcases List.mem_map.mp hr with ⟨w, hw, rfl⟩
      exact Or.inr ⟨hmsg, w, hw, hv⟩
  · intro e he
    refine ⟨by unfold runWrite; rw [he], ?_⟩
    have hshape := check_valores_error_shape _ e (commitWrite_error_check store sel v e he)
    rcases hshape with ⟨hmsg, r', hr', hv⟩ | ⟨hmsg, r', hr', hv⟩
    · rcases List.mem_map.mp hr' with ⟨r, hr, rfl⟩
      exact Or.inl ⟨hmsg, r, hr, hv⟩
    · rcases List.mem_map.mp hr' with ⟨r, hr, rfl⟩
      exact Or.inr ⟨hmsg, r, hr, hv⟩

/-- Claim C1 counterexample: the validation failure does not identify the
offending record.  Two commits failing on records with different
identities (`nombre` "A" versus "B") produce the very same error value —
the fixed field message — so no record identity can be recovered from the
error, contradicting the claim that the error identifies the offending
record. -/
theorem commit_error_lacks_record_identity :
    commitCreate [] [valsNegA] = Except.error precioMsg ∧
      commitCreate [] [valsNegB] = Except.error precioMsg ∧
      (create_record valsNegA).nombre ≠ (create_record valsNegB).nombre := by
  decide

/-- Claim C1 witness: a concrete failing create commit leaves the store
unchanged. -/
theorem commit_validation_witness : runCreate [] [valsNegA] = [] :=
  ((commit_validation [] [valsNegA] (fun _ => false) emptyVals).2.2.1 precioMsg
    (by decide)).1

/-- Claim C2: for every record, the committed recompute `_compute_subtotal`
sets `subtotal = precio_unitario * cantidad` exactly (the embedding uses
exact rational arithmetic, so no rounding beyond the numeric type's native
precision occurs). -/
theorem subtotal_is_price_times_qty (recs : List Producto) :
    ((compute_subtotal recs).map Producto.subtotal =
        recs.map (fun r => r.precio_unitario * (r.cantidad : ℚ))) ∧
      ∀ r : Producto,
        (computeSubtotalOne r).subtotal = r.precio_unitario * (r.cantidad : ℚ) := by
  constructor
  · simp [compute_subtotal, computeSubtotalOne]
  · intro r; rfl

/-- Claim C3: `_compute_total` sets `total = subtotal * (1 + iva / 100)`,
and in a recomputation pass `_compute_subtotal` is resolved before
`_compute_total` (dependency order), so after one pass both derived fields
reflect the current `precio_unitario`, `cantidad` and `iva`. -/
theorem total_formula_and_pass_order (recs : List Producto) :
    ((compute_total recs).map Producto.total =
        recs.map (fun r => r.subtotal * (1 + r.iva / 100))) ∧
      ((recomputePass recs).map Producto.subtotal =
        recs.map (fun r => r.precio_unitario * (r.cantidad : ℚ))) ∧
      ((recomputePass recs).map Producto.total =
        recs.map (fun r => r.precio_unitario * (r.cantidad : ℚ) * (1 + r.iva / 100))) := by
  refine ⟨?_, ?_, ?_⟩
  · simp [compute_total, computeTotalOne]
  · simp [recomputePass, compute_total, compute_subtotal, computeTotalOne,
      computeSubtotalOne]
  · simp [recomputePass, compute_total, compute_subtotal, computeTotalOne,
      computeSubtotalOne]

/-- Claim C4 counterexample: with `cantidad = 0` the guard
`if self.precio_unitario and self.cantidad` of `_onchange_subtotal` is
falsy, so the form-side recompute leaves the stale subtotal 50 in place
while the committed recompute `_compute_subtotal` would produce 0 — the
preview does not always match the committed value. -/
theorem onchange_differs_from_compute :
    (onchange_subtotal rStale).subtotal = 50 ∧
      (computeSubtotalOne rStale).subtotal = 0 ∧
      (onchange_subtotal rStale).subtotal ≠ (computeSubtotalOne rStale).subtotal := by
  norm_num [onchange_subtotal, computeSubtotalOne, rStale]

/-- Claim C4 (amended): when both `precio_unitario` and `cantidad` are
nonzero (Python-truthy), the form-side `_onchange_subtotal` produces
exactly the record the committed `_compute_subtotal` would, persisting
nothing (it is a pure function on the form state); when either value is
zero the onchange leaves the record entirely unchanged. -/
theorem onchange_matches_compute (r : Producto) :
    (r.precio_unitario ≠ 0 → r.cantidad ≠ 0 →
        onchange_subtotal r = computeSubtotalOne r) ∧
      (r.precio_unitario = 0 ∨ r.cantidad = 0 → onchange_subtotal r = r) := by
  constructor
  · intro h1 h2
    unfold onchange_subtotal computeSubtotalOne
    rw [if_pos ⟨h1, h2⟩]
  · intro h
    unfold onchange_subtotal
    rw [if_neg]
    rcases h with h | h
    · exact fun hc => hc.1 h
    · exact fun hc => hc.2 h

/-- Claim C4 witness: on a record with nonzero price and quantity the
onchange and the committed recompute agree. -/
theorem onchange_matches_compute_witness :
    onchange_subtotal rGood = computeSubtotalOne rGood :=
  (onchange_matches_compute rGood).1 (by decide) (by decide)

/-- Claim C5 counterexample: `duplicar_producto` suffixes the copy's name
with " (Copia)", not " (Copy)": duplicating a record named "Widget" yields
"Widget (Copia)". -/
theorem duplicar_suffix_copia :
    (create_record (duplicarVals rGood)).nombre = "Widget (Copia)" ∧
      (create_record (duplicarVals rGood)).nombre ≠ rGood.nombre ++ " (Copy)" := by
  decide

/-- Claim C5 (amended): the duplicate's name is the original's suffixed
with " (Copia)", its description, unit price, quantity, tax rate, active
flag, category reference and kind equal the original's, and its subtotal
and total are the values computed from its own copied fields. -/
theorem duplicar_copies_fields (r : Producto) :
    (create_record (duplicarVals r)).nombre = r.nombre ++ " (Copia)" ∧
      (create_record (duplicarVals r)).descripcion = r.descripcion ∧
      (create_record (duplicarVals r)).precio_unitario = r.precio_unitario ∧
      (create_record (duplicarVals r)).cantidad = r.cantidad ∧
      (create_record (duplicarVals r)).iva = r.iva ∧
      (create_record (duplicarVals r)).activo = r.activo ∧
      (create_record (duplicarVals r)).categoria_id = r.categoria_id ∧
      (create_record (duplicarVals r)).tipo = r.tipo ∧
      (create_record (duplicarVals r)).subtotal =
        (create_record (duplicarVals r)).precio_unitario *
          ((create_record (duplicarVals r)).cantidad : ℚ) ∧
      (create_record (duplicarVals r)).total =
        (create_record (duplicarVals r)).subtotal *
          (1 + (create_record (duplicarVals r)).iva / 100) :=
  ⟨rfl, rfl, rfl, rfl, rfl, rfl, rfl, rfl, rfl, rfl⟩

/-- Claim C6 counterexample: `duplicar_producto` passes `cantidad`
explicitly in the create dictionary (the key is present, holding the
original's value), so the copy's quantity is the original's 2 rather than
the value 1 the normal creation default rules produce. -/
theorem duplicar_passes_cantidad :
    (duplicarVals rGood).cantidad = some 2 ∧
      (create_record (duplicarVals rGood)).cantidad = 2 ∧
      (create_record emptyVals).cantidad = 1 := by
  decide

/-- Claim C6 (amended): the duplicate's create dictionary carries
`cantidad` explicitly (copied from the original), while the derived
fields `subtotal` and `total` are absent from it and are recomputed fresh
on the new record from its own copied values. -/
theorem duplicar_vals_shape (r : Producto) :
    (duplicarVals r).cantidad = some r.cantidad ∧
      (duplicarVals r).subtotal = none ∧
      (duplicarVals r).total = none ∧
      (create_record (duplicarVals r)).subtotal =
        r.precio_unitario * (r.cantidad : ℚ) ∧
      (create_record (duplicarVals r)).total =
        r.precio_unitario * (r.cantidad : ℚ) * (1 + r.iva / 100) :=
  ⟨rfl, rfl, rfl, rfl, rfl⟩

/-- Claim C7: `action_marcar_inactivo` returns `True`, and pointwise over
the recordset it sets `activo = False` while leaving every other field of
every record unchanged. -/
theorem marcar_inactivo_sets_only_flag (recs : List Producto) :
    (action_marcar_inactivo recs).2 = true ∧
      List.Forall₂ (fun r r' =>
          r'.activo = false ∧ r'.nombre = r.nombre ∧
          r'.descripcion = r.descripcion ∧
          r'.precio_unitario = r.precio_unitario ∧
          r'.cantidad = r.cantidad ∧ r'.subtotal = r.subtotal ∧
          r'.iva = r.iva ∧ r'.total = r.total ∧
          r'.categoria_id = r.categoria_id ∧ r'.tipo = r.tipo)
        recs (action_marcar_inactivo recs).1 := by
  refine ⟨rfl, ?_⟩
  induction recs with
  | nil => exact List.Forall₂.nil
  | cons r rs ih =>
      exact List.Forall₂.cons ⟨rfl, rfl, rfl, rfl, rfl, rfl, rfl, rfl, rfl, rfl⟩ ih

/-- Claim C8: `productos_activos` returns exactly the records with
`activo = true` — membership in the result is equivalent to membership in
the store with the flag set — and the result is in the model's declared
`_order = "nombre asc"`, i.e. pairwise sorted by name. -/
theorem productos_activos_spec (store : List Producto) :
    (∀ r, r ∈ productos_activos store ↔ r ∈ store ∧ r.activo = true) ∧
      (productos_activos store).Pairwise (fun a b => a.nombre ≤ b.nombre) := by
  constructor
  · intro r
    simp [productos_activos, List.mem_filter]
  · unfold productos_activos
    refine List.Pairwise.imp ?_ (List.sorted_mergeSort ?_ ?_ _)
    · intro a b hab
      exact of_decide_eq_true hab
    · intro a b c hab hbc
      exact decide_eq_true
        (le_trans (of_decide_eq_true hab) (of_decide_eq_true hbc))
    · intro a b
      simp only [Bool.or_eq_true, decide_eq_true_eq]
      exact le_total a.nombre b.nombre

/-- Claim C9: `action_abrir_wizard` returns, for any recordset, the fixed
window-action dictionary targeting the wizard model `"mi.modulo.wizard"`
in `"form"` view with `target = "new"` (the host's modal display); the
result never depends on the recordset and the method touches no state —
it is a pure navigation descriptor. -/
theorem abrir_wizard_action (recs recs' : List Producto) :
    action_abrir_wizard recs =
        { type := "ir.actions.act_window", res_model := "mi.modulo.wizard",
          view_mode := "form", target := "new" } ∧
      action_abrir_wizard recs = action_abrir_wizard recs' :=
  ⟨rfl, rfl⟩

/-- Claim C10: on a non-empty recordset `duplicar_producto` hands `None`
back to its caller — no reference to the created copies — while each copy
does exist in the store afterwards. -/
theorem duplicar_returns_none (recs store : List Producto) (_h : recs ≠ []) :
    (duplicar_producto recs store).2 = none ∧
      ∀ r ∈ recs,
        create_record (duplicarVals r) ∈ (duplicar_producto recs store).1 := by
  refine ⟨rfl, ?_⟩
  intro r hr
  rw [duplicar_producto_fst]
  exact List.mem_append_right _ (List.mem_map_of_mem _ hr)

/-- Claim C10 witness: duplicating the concrete record `rStale` into an
empty store returns `none` and leaves the copy in the store. -/
theorem duplicar_returns_none_witness :
    (duplicar_producto [rStale] []).2 = none ∧
      create_record (duplicarVals rStale) ∈ (duplicar_producto [rStale] []).1 := by
  have h := duplicar_returns_none [rStale] [] (List.cons_ne_nil rStale [])
  exact ⟨h.1, h.2 rStale (List.mem_cons_self rStale [])⟩
